import Mathlib

/-!
Shallow embedding of `react-overflow-indicator` (`src/index.tsx`) and
verification of its specification claims.

The embedding mirrors the TypeScript source:
* `Direction`, `CanScroll`, `Dispatch` mirror the `enum`/`interface`
  declarations (lines 13-31).
* `reducer` mirrors the reducer (lines 70-87).  Since claims speak about
  JavaScript object identity (the reducer returning the very same state
  object versus a freshly allocated one), the embedded reducer returns a
  `ReducerResult` whose constructor records which `return` statement ran:
  `same` for the two `return state` paths (the input reference itself) and
  `fresh` for the `return { ...state, ... }` path (a newly allocated
  object).
* `getInitialState` mirrors lines 89-98.
* `reducerObj` replays the reducer at the level of JavaScript runtime
  objects (ordered key/value lists) for the key-set invariant.
* `observerCallback`, `rootMarginFor`, `watchTarget`, `toleranceElement`
  mirror the watcher effect of `OverflowContent` (lines 229-344).
* `overflowIndicatorActive` mirrors `OverflowIndicator` (lines 407-412)
  and `defaultContextValue` the context default of line 43.
* `mountProvider` / `dispatchToProvider` model the provider and its
  `onStateChange` effect (lines 141, 162, 174-178).
-/

inductive Direction where
  | up
  | left
  | right
  | down
deriving DecidableEq, Repr

/-- The `CanScroll` interface (lines 20-25): a fixed-shape record with one
boolean per direction. -/
structure CanScroll where
  up : Bool
  left : Bool
  right : Bool
  down : Bool
deriving DecidableEq, Repr

/-- JavaScript property read `cs[direction]` on a `CanScroll` object. -/
def canScrollGet (cs : CanScroll) : Direction → Bool
  | Direction.up => cs.up
  | Direction.left => cs.left
  | Direction.right => cs.right
  | Direction.down => cs.down

/-- JavaScript computed-key spread `{ ...cs, [direction]: v }` on a
`CanScroll` object. -/
def canScrollSet (cs : CanScroll) : Direction → Bool → CanScroll
  | Direction.up, v => { cs with up := v }
  | Direction.left, v => { cs with left := v }
  | Direction.right, v => { cs with right := v }
  | Direction.down, v => { cs with down := v }

/-- The state held by the reducer: `{ canScroll: CanScroll }` (line 70). -/
structure OverflowState where
  canScroll : CanScroll
deriving DecidableEq, Repr

/-- The `Dispatch` interface (lines 27-31): an action
`{ type, direction, canScroll }`. -/
structure Dispatch where
  type : String
  direction : Direction
  canScroll : Bool
deriving DecidableEq, Repr

/-- Result of one reducer call, recording JavaScript object identity:
`same s` means the reducer executed `return state`, handing back the very
input reference `s`; `fresh s` means it executed the object literal
`return { ...state, canScroll: { ... } }`, allocating a new object. -/
inductive ReducerResult where
  | same (state : OverflowState)
  | fresh (state : OverflowState)
deriving DecidableEq, Repr

/-- The state carried by a `ReducerResult`, forgetting identity. -/
def ReducerResult.state : ReducerResult → OverflowState
  | ReducerResult.same s => s
  | ReducerResult.fresh s => s

/-- The reducer (lines 70-87).  On a `CHANGE` action it reads
`state.canScroll[action.direction]`; if it equals `action.canScroll` it
returns the input state itself, otherwise it returns a fresh object with
only that direction replaced.  Any other action type falls through to
`return state`. -/
def reducer (state : OverflowState) (action : Dispatch) : ReducerResult :=
  if action.type = "CHANGE" then
    let currentValue := canScrollGet state.canScroll action.direction
    if currentValue = action.canScroll then
      ReducerResult.same state
    else
      ReducerResult.fresh
        { state with
          canScroll := canScrollSet state.canScroll action.direction action.canScroll }
  else
    ReducerResult.same state

/-- `getInitialState` (lines 89-98): all four directions start `false`. -/
def getInitialState : OverflowState :=
  { canScroll := { up := false, left := false, right := false, down := false } }

/-!
JavaScript object-level model of the `canScroll` record, for the key-set
invariant.  A runtime object is an ordered association list of
(key, boolean value) pairs; `objGet` models a property read (returning
`none` for `undefined`), `objSet` models the spread
`{ ...obj, [key]: value }` (an existing key keeps its position, a new key
is appended), and `reducerObj` is the reducer of lines 70-87 replayed at
this level: the strict comparison `currentValue === action.canScroll`
is false whenever `currentValue` is `undefined`.
-/

abbrev CanScrollObj := List (String × Bool)

/-- Property read `m[k]` on a JavaScript object: `none` is `undefined`. -/
def objGet : CanScrollObj → String → Option Bool
  | [], _ => none
  | (k', v) :: rest, k => if k' = k then some v else objGet rest k

/-- Spread update `{ ...m, [k]: v }`: replaces in place if `k` is present,
appends otherwise. -/
def objSet : CanScrollObj → String → Bool → CanScrollObj
  | [], k, v => [(k, v)]
  | (k', v') :: rest, k, v =>
    if k' = k then (k, v) :: rest else (k', v') :: objSet rest k v

/-- The string key a `Direction` denotes (the `Direction` enum values,
lines 13-18). -/
def directionKey : Direction → String
  | Direction.up => "up"
  | Direction.left => "left"
  | Direction.right => "right"
  | Direction.down => "down"

/-- The reducer (lines 70-87) acting on the object-level `canScroll`
record. -/
def reducerObj (state : CanScrollObj) (action : Dispatch) : CanScrollObj :=
  if action.type = "CHANGE" then
    let currentValue := objGet state (directionKey action.direction)
    if currentValue = some action.canScroll then
      state
    else
      objSet state (directionKey action.direction) action.canScroll
  else
    state

/-- The object literal of `getInitialState` (lines 89-98), key order as
written in the source. -/
def getInitialCanScrollObj : CanScrollObj :=
  [("up", false), ("left", false), ("right", false), ("down", false)]

/-!
The intersection-observer callback (lines 251-277).  An entry carries the
fields the callback reads: `boundingClientRect.width` and `.height`,
`intersectionRatio` (modelled as rationals) and `isIntersecting`.  The
callback first checks the captured `ignore` flag and returns without
dispatching when it is set; otherwise it computes
`canScroll = hasSize && intersectionRatio !== 0 && isIntersecting`
(where `hasSize = Boolean(width || height)`, i.e. width or height
non-zero) and dispatches `{ type: CHANGE, direction, canScroll }`.
The returned `Option Dispatch` is the dispatch performed: `none` means no
dispatch happened.
-/

structure BoundingClientRect where
  width : ℚ
  height : ℚ
deriving DecidableEq, Repr

structure IntersectionEntry where
  boundingClientRect : BoundingClientRect
  intersectionRatio : ℚ
  isIntersecting : Bool
deriving DecidableEq, Repr

/-- The callback body of `createObserver` (lines 253-270). -/
def observerCallback (ignore : Bool) (direction : Direction)
    (entry : IntersectionEntry) : Option Dispatch :=
  if ignore then
    none
  else
    let hasSize : Bool :=
      decide (entry.boundingClientRect.width ≠ 0) ||
        decide (entry.boundingClientRect.height ≠ 0)
    let canScroll : Bool :=
      hasSize && decide (entry.intersectionRatio ≠ 0) && entry.isIntersecting
    some (Dispatch.mk "CHANGE" direction canScroll)

/-!
The `rootMargin` vectors of the four observers (lines 279-284).  A CSS
`rootMargin` string lists four components in the order top, right,
bottom, left; each component of these particular strings is either a
percentage of the root viewport extent or `0px`.  `rootMarginFor` is the
structured reading of the exact strings in the source:
  up:    `100% 0px -100% 0px`
  left:  `0px -100% 0px 100%`
  right: `0px 100% 0px -100%`
  down:  `-100% 0px 100% 0px`
and `rootMarginRender` maps the structured value back to the source
string, pinning the translation to the literal text.
-/

inductive MarginLen where
  | pct (n : Int)
  | px (n : Int)
deriving DecidableEq, Repr

structure RootMargin where
  top : MarginLen
  right : MarginLen
  bottom : MarginLen
  left : MarginLen
deriving DecidableEq, Repr

def MarginLen.render : MarginLen → String
  | MarginLen.pct n => toString n ++ "%"
  | MarginLen.px n => toString n ++ "px"

def rootMarginRender (m : RootMargin) : String :=
  m.top.render ++ " " ++ m.right.render ++ " " ++ m.bottom.render ++ " " ++
    m.left.render

/-- The margin vector passed to `createObserver` for each direction
(lines 280-283). -/
def rootMarginFor : Direction → RootMargin
  | Direction.up =>
    { top := MarginLen.pct 100, right := MarginLen.px 0,
      bottom := MarginLen.pct (-100), left := MarginLen.px 0 }
  | Direction.left =>
    { top := MarginLen.px 0, right := MarginLen.pct (-100),
      bottom := MarginLen.px 0, left := MarginLen.pct 100 }
  | Direction.right =>
    { top := MarginLen.px 0, right := MarginLen.pct 100,
      bottom := MarginLen.px 0, left := MarginLen.pct (-100) }
  | Direction.down =>
    { top := MarginLen.pct (-100), right := MarginLen.px 0,
      bottom := MarginLen.pct 100, left := MarginLen.px 0 }

/-- The margin component sitting on the edge named by the direction
itself (up: top, left: left, right: right, down: bottom). -/
def edgeComponent : Direction → RootMargin → MarginLen
  | Direction.up, m => m.top
  | Direction.left, m => m.left
  | Direction.right, m => m.right
  | Direction.down, m => m.bottom

/-- The margin component on the boundary opposite the direction
(up: bottom, left: right, right: left, down: top). -/
def oppositeComponent : Direction → RootMargin → MarginLen
  | Direction.up, m => m.bottom
  | Direction.left, m => m.right
  | Direction.right, m => m.left
  | Direction.down, m => m.top

/-- The two margin components on the axis perpendicular to the direction
(up and down: right and left; left and right: top and bottom). -/
def crossComponents : Direction → RootMargin → MarginLen × MarginLen
  | Direction.up, m => (m.right, m.left)
  | Direction.down, m => (m.right, m.left)
  | Direction.left, m => (m.top, m.bottom)
  | Direction.right, m => (m.top, m.bottom)

/-!
The tolerance prop and the watched target.  `tolerance` has TypeScript
type `number | string` (line 209) and defaults to `0` when absent
(line 138).  Line 238 selects the watched node by JavaScript truthiness:
`const watchRef = tolerance ? toleranceRef : contentRef`, and the
`toleranceElement` memo (lines 325-344) renders the proxy div exactly
when `tolerance` is truthy.
-/

inductive Tolerance where
  | num (q : ℚ)
  | str (s : String)
deriving DecidableEq, Repr

/-- JavaScript truthiness of a `number | string` value: the number 0 and
the empty string are falsy, every other value is truthy. -/
def Tolerance.truthy : Tolerance → Bool
  | Tolerance.num q => decide (q ≠ 0)
  | Tolerance.str s => decide (s ≠ "")

/-- The default used when the prop is absent (line 138: `tolerance = 0`). -/
def defaultTolerance : Tolerance := Tolerance.num 0

/-- Whether a tolerance value denotes a zero length: the number 0, or a
CSS zero-length string such as "0" or "0px".  This interprets the word
zero of the specification for the string-typed values the prop admits. -/
def Tolerance.isZeroLength : Tolerance → Bool
  | Tolerance.num q => decide (q = 0)
  | Tolerance.str s => decide (s = "0" ∨ s = "0px")

inductive WatchTarget where
  | content
  | toleranceProxy
deriving DecidableEq, Repr

/-- Line 238: `const watchRef = tolerance ? toleranceRef : contentRef`. -/
def watchTarget (tolerance : Tolerance) : WatchTarget :=
  if tolerance.truthy then WatchTarget.toleranceProxy else WatchTarget.content

/-- The style object of the proxy div (lines 331-340). -/
structure ToleranceProxyStyle where
  position : String
  top : Tolerance
  left : Tolerance
  right : Tolerance
  bottom : Tolerance
  background : String
  pointerEvents : String
  zIndex : Int
deriving DecidableEq, Repr

/-- The `toleranceElement` memo (lines 325-344): when `tolerance` is
truthy, a proxy div positioned absolutely with all four insets equal to
the tolerance, transparent background, `pointerEvents: none` and
`zIndex: -1`; otherwise `null`. -/
def toleranceElement (tolerance : Tolerance) : Option ToleranceProxyStyle :=
  if tolerance.truthy then
    some
      { position := "absolute", top := tolerance, left := tolerance,
        right := tolerance, bottom := tolerance, background := "transparent",
        pointerEvents := "none", zIndex := -1 }
  else
    none

/-!
The shared context and the indicator component.  Line 43 creates the
context with default value `{}` (the empty object), so outside a provider
every field of the context is absent.  `OverflowIndicator`
(lines 407-412) destructures `state` from the context and `canScroll`
from `state`; when `state` is `undefined` that second destructuring
throws a `TypeError` at runtime, modelled as `Except.error`.
-/

/-- A context value as seen through `useOverflow`: each field of the
`OverflowContext` interface may be absent. -/
structure OverflowContextVal where
  state : Option OverflowState
  dispatchPresent : Bool
  tolerance : Option Tolerance
deriving DecidableEq, Repr

/-- The default context value `{}` (line 43): every field absent. -/
def defaultContextValue : OverflowContextVal :=
  { state := none, dispatchPresent := false, tolerance := none }

/-- The active-signal computation of `OverflowIndicator` (lines 410-412):
`direction ? canScroll[direction] : canScroll.up || canScroll.left ||
canScroll.right || canScroll.down`. -/
def indicatorIsActive (canScroll : CanScroll) (direction : Option Direction) :
    Bool :=
  match direction with
  | some d => canScrollGet canScroll d
  | none => canScroll.up || canScroll.left || canScroll.right || canScroll.down

/-- Evaluation of `OverflowIndicator` (lines 407-412) against a context
value: destructuring `canScroll` from an absent `state` throws, otherwise
the active signal is computed. -/
def overflowIndicatorActive (ctx : OverflowContextVal)
    (direction : Option Direction) : Except String Bool :=
  match ctx.state with
  | none =>
    Except.error "TypeError: cannot destructure canScroll of undefined state"
  | some st => Except.ok (indicatorIsActive st.canScroll direction)

/-!
The provider and its `onStateChange` effect.  `refs` (line 162) is
created once per provider and never replaced; the effect on lines 174-178
has dependencies `[onStateChange, refs, state]`, so it fires after the
first commit at mount and again exactly when the committed `state`
changes identity — a dispatch on which the reducer returned the same
reference leaves the dependency unchanged and the effect silent.
-/

structure Refs where
  viewport : Unit
deriving DecidableEq, Repr

/-- The single refs object of a provider (line 162). -/
def providerRefs : Refs := { viewport := () }

/-- Observable provider model: the current reducer state plus the log of
`onStateChange` invocations, oldest first, each with its `(state, refs)`
arguments. -/
structure ProviderModel where
  state : OverflowState
  onStateChangeCalls : List (OverflowState × Refs)
deriving DecidableEq, Repr

/-- Mounting the provider: the state starts at `getInitialState`
(line 141) and the effect fires once after the first commit. -/
def mountProvider : ProviderModel :=
  { state := getInitialState,
    onStateChangeCalls := [(getInitialState, providerRefs)] }

/-- One dispatch processed by the provider: the reducer decides the next
state; on a same-reference result the `state` dependency is unchanged and
the effect does not re-run; on a fresh result the effect fires with the
new state. -/
def dispatchToProvider (p : ProviderModel) (a : Dispatch) : ProviderModel :=
  match reducer p.state a with
  | ReducerResult.same s => { p with state := s }
  | ReducerResult.fresh s =>
    { state := s, onStateChangeCalls := p.onStateChangeCalls ++ [(s, providerRefs)] }

/-!
The watcher effect and its teardown (lines 246-295).  Setup captures a
local `ignore` flag initialised to `false` and creates the four
observers; the cleanup closure sets `ignore = true` and then
unconditionally disconnects all four observers.  `processReport` chains
one delivered report through the observer callback and the reducer,
recording whether the committed state changed identity (which is what
would re-run the `onStateChange` effect).
-/

/-- Connection status of the four observers (lines 279-284). -/
structure ObserverConnections where
  up : Bool
  left : Bool
  right : Bool
  down : Bool
deriving DecidableEq, Repr

/-- One run of the watcher effect: the captured `ignore` flag and the
observers. -/
structure WatcherEffect where
  ignore : Bool
  observers : ObserverConnections
deriving DecidableEq, Repr

/-- Effect setup (lines 247-286): `ignore = false`, four observers
created and connected. -/
def setupWatcherEffect : WatcherEffect :=
  { ignore := false,
    observers := { up := true, left := true, right := true, down := true } }

/-- The cleanup closure (lines 288-294): sets `ignore = true`, then
disconnects `up`, `left`, `right` and `down` unconditionally. -/
def cleanupWatcherEffect (_w : WatcherEffect) : WatcherEffect :=
  { ignore := true,
    observers := { up := false, left := false, right := false, down := false } }

/-- One delivered report processed end to end: the callback (under the
current `ignore` flag) possibly dispatches, the reducer processes any
dispatched action; the boolean records whether the state changed
identity. -/
def processReport (ignore : Bool) (direction : Direction)
    (entry : IntersectionEntry) (s : OverflowState) : OverflowState × Bool :=
  match observerCallback ignore direction entry with
  | none => (s, false)
  | some a =>
    match reducer s a with
    | ReducerResult.same s' => (s', false)
    | ReducerResult.fresh s' => (s', true)

/-!
Theorems.  Helper lemmas come first, then one theorem per specification
claim, with its witness or counterexample where required.
-/

lemma canScrollGet_set_self (cs : CanScroll) (d : Direction) (v : Bool) :
    canScrollGet (canScrollSet cs d v) d = v := by
  cases d <;> rfl

lemma canScrollGet_set_ne (cs : CanScroll) (d d' : Direction) (v : Bool)
    (h : d' ≠ d) : canScrollGet (canScrollSet cs d v) d' = canScrollGet cs d' := by
  cases d <;> cases d' <;> first | rfl | exact absurd rfl h

lemma objSet_keys_of_mem (m : CanScrollObj) (k : String) (v : Bool)
    (h : k ∈ m.map Prod.fst) :
    (objSet m k v).map Prod.fst = m.map Prod.fst := by
  induction m with
  | nil => simp at h
  | cons p rest ih =>
    obtain ⟨k', v'⟩ := p
    by_cases hk : k' = k
    · simp [objSet, hk]
    · simp only [List.map_cons, List.mem_cons] at h
      rcases h with h | h
      · exact absurd h.symm hk
      · simp [objSet, hk, ih h]

lemma reducerObj_keys (m : CanScrollObj) (a : Dispatch)
    (h : directionKey a.direction ∈ m.map Prod.fst) :
    (reducerObj m a).map Prod.fst = m.map Prod.fst := by
  unfold reducerObj
  by_cases ht : a.type = "CHANGE"
  · by_cases hv : objGet m (directionKey a.direction) = some a.canScroll
    · simp [ht, hv]
    · simp [ht, hv, objSet_keys_of_mem m _ a.canScroll h]
  · simp [ht]

lemma objGet_isSome_of_mem (m : CanScrollObj) (k : String)
    (h : k ∈ m.map Prod.fst) : ∃ b, objGet m k = some b := by
  induction m with
  | nil => simp at h
  | cons p rest ih =>
    obtain ⟨k', v'⟩ := p
    by_cases hk : k' = k
    · exact ⟨v', by simp [objGet, hk]⟩
    · simp only [List.map_cons, List.mem_cons] at h
      rcases h with h | h
      · exact absurd h.symm hk
      · obtain ⟨b, hb⟩ := ih h
        exact ⟨b, by simp [objGet, hk, hb]⟩

lemma foldl_reducerObj_keys (actions : List Dispatch) (m : CanScrollObj)
    (h : m.map Prod.fst = ["up", "left", "right", "down"]) :
    (actions.foldl reducerObj m).map Prod.fst = ["up", "left", "right", "down"] := by
  induction actions generalizing m with
  | nil => simpa using h
  | cons a rest ih =>
    have hmem : directionKey a.direction ∈ m.map Prod.fst := by
      rw [h]; cases a.direction <;> simp [directionKey]
    have hstep := reducerObj_keys m a hmem
    exact ih (reducerObj m a) (hstep.trans h)

lemma rootMarginFor_renders_source_strings :
    rootMarginRender (rootMarginFor Direction.up) = "100% 0px -100% 0px" ∧
    rootMarginRender (rootMarginFor Direction.left) = "0px -100% 0px 100%" ∧
    rootMarginRender (rootMarginFor Direction.right) = "0px 100% 0px -100%" ∧
    rootMarginRender (rootMarginFor Direction.down) = "-100% 0px 100% 0px" := by
  refine ⟨?_, ?_, ?_, ?_⟩ <;> rfl

/-- C1 counterexample: the Indicator Evaluator, run against the default
context (no enclosing provider), does not report an inactive signal — in
the no-direction case and for the concrete direction `up` alike the
evaluation is not `ok false` but a thrown TypeError. -/
theorem indicator_without_provider_not_inactive :
    overflowIndicatorActive defaultContextValue none ≠ Except.ok false ∧
    overflowIndicatorActive defaultContextValue (some Direction.up) ≠
      Except.ok false := by
  constructor <;> intro h <;> exact Except.noConfusion h

/-- C1 amended: an Indicator rendered with no enclosing provider reads
the default context, the empty object of line 43, whose `state` field is
absent; evaluating the active signal then fails with a TypeError
(destructuring `canScroll` from `undefined`) for every supplied direction
and for the no-direction case alike, rather than degrading to inactive. -/
theorem indicator_without_provider_throws (direction : Option Direction) :
    ∃ msg : String,
      overflowIndicatorActive defaultContextValue direction =
        Except.error msg := by
  exact ⟨_, rfl⟩

/-- C2: for every state and every CHANGE action whose `canScroll` value
equals the value already stored for the named direction, the reducer
returns the input state itself (the identical reference, recorded by the
`same` constructor), not a structurally equal copy. -/
theorem reducer_noop_returns_same_reference (s : OverflowState) (a : Dispatch)
    (htype : a.type = "CHANGE")
    (hval : canScrollGet s.canScroll a.direction = a.canScroll) :
    reducer s a = ReducerResult.same s := by
  simp [reducer, htype, hval]

theorem reducer_noop_returns_same_reference_witness :
    (Dispatch.mk "CHANGE" Direction.up false).type = "CHANGE" ∧
    canScrollGet getInitialState.canScroll
      (Dispatch.mk "CHANGE" Direction.up false).direction =
      (Dispatch.mk "CHANGE" Direction.up false).canScroll ∧
    reducer getInitialState (Dispatch.mk "CHANGE" Direction.up false) =
      ReducerResult.same getInitialState :=
  ⟨rfl, rfl,
    reducer_noop_returns_same_reference getInitialState
      (Dispatch.mk "CHANGE" Direction.up false) rfl rfl⟩

/-- C3: a CHANGE action for direction `d` leaves the boolean stored for
every other direction exactly as it was in the input state. -/
theorem reducer_change_preserves_other_directions (s : OverflowState)
    (d : Direction) (v : Bool) (d' : Direction) (h : d' ≠ d) :
    canScrollGet (reducer s (Dispatch.mk "CHANGE" d v)).state.canScroll d' =
      canScrollGet s.canScroll d' := by
  unfold reducer
  simp only [if_pos rfl]
  by_cases hv : canScrollGet s.canScroll d = v
  · simp [hv, ReducerResult.state]
  · simp [hv, ReducerResult.state, canScrollGet_set_ne s.canScroll d d' v h]

theorem reducer_change_preserves_other_directions_witness :
    Direction.left ≠ Direction.up ∧
    canScrollGet
      (reducer getInitialState (Dispatch.mk "CHANGE" Direction.up true)).state.canScroll
      Direction.left = canScrollGet getInitialState.canScroll Direction.left :=
  ⟨by decide,
    reducer_change_preserves_other_directions getInitialState Direction.up true
      Direction.left (by decide)⟩

/-- C4 counterexample: the claim says the D-edge boundary is left at zero
offset, for example that for D = up the top component is zero; in the
source the up observer has top component `100%`, which is neither `0px`
nor `0%`. -/
theorem rootMargin_up_top_not_zero :
    (rootMarginFor Direction.up).top = MarginLen.pct 100 ∧
    (rootMarginFor Direction.up).top ≠ MarginLen.px 0 ∧
    (rootMarginFor Direction.up).top ≠ MarginLen.pct 0 := by
  refine ⟨rfl, ?_, ?_⟩ <;> decide

/-- C4 amended: for each direction D the boundary opposite to D is offset
by -100% (pulled 100% of the viewport extent out of range) while the
D-edge boundary is offset by +100% (pushed outward, not left at zero),
and the two cross-axis components are 0px; the test region is therefore a
band of the viewport extent adjacent to and outside the D-edge. -/
theorem rootMargin_offsets (d : Direction) :
    oppositeComponent d (rootMarginFor d) = MarginLen.pct (-100) ∧
    edgeComponent d (rootMarginFor d) = MarginLen.pct 100 ∧
    crossComponents d (rootMarginFor d) = (MarginLen.px 0, MarginLen.px 0) := by
  cases d <;> exact ⟨rfl, rfl, rfl⟩

/-- C5: once the watcher-effect cleanup has run, the `ignore` flag is
set, so any late report from any observer dispatches nothing and leaves
the state untouched without an identity change (hence without firing the
state-change callback); and cleanup leaves all four observers
disconnected unconditionally, whatever their prior status. -/
theorem teardown_drops_late_reports (w : WatcherEffect) (d : Direction)
    (e : IntersectionEntry) (s : OverflowState) :
    (cleanupWatcherEffect w).ignore = true ∧
    observerCallback (cleanupWatcherEffect w).ignore d e = none ∧
    processReport (cleanupWatcherEffect w).ignore d e s = (s, false) ∧
    (cleanupWatcherEffect w).observers =
      { up := false, left := false, right := false, down := false } :=
  ⟨rfl, rfl, rfl, rfl⟩

/-- C6: the `onStateChange` callback is invoked with `(state, refs)` once
at mount with the initial state, is not invoked when a dispatch makes the
reducer return the same state reference, and is invoked with the new
state exactly when the reducer returns a fresh state. -/
theorem onStateChange_fires_per_commit :
    mountProvider.onStateChangeCalls = [(getInitialState, providerRefs)] ∧
    (∀ (p : ProviderModel) (a : Dispatch),
      reducer p.state a = ReducerResult.same p.state →
        dispatchToProvider p a = p) ∧
    (∀ (p : ProviderModel) (a : Dispatch) (s' : OverflowState),
      reducer p.state a = ReducerResult.fresh s' →
        (dispatchToProvider p a).state = s' ∧
        (dispatchToProvider p a).onStateChangeCalls =
          p.onStateChangeCalls ++ [(s', providerRefs)]) := by
  refine ⟨rfl, ?_, ?_⟩
  · intro p a h
    simp [dispatchToProvider, h]
  · intro p a s' h
    simp [dispatchToProvider, h]

theorem onStateChange_fires_per_commit_witness :
    (reducer mountProvider.state (Dispatch.mk "CHANGE" Direction.up false) =
      ReducerResult.same mountProvider.state ∧
      dispatchToProvider mountProvider (Dispatch.mk "CHANGE" Direction.up false) =
        mountProvider) ∧
    (reducer mountProvider.state (Dispatch.mk "CHANGE" Direction.up true) =
      ReducerResult.fresh
        (OverflowState.mk (CanScroll.mk true false false false)) ∧
      (dispatchToProvider mountProvider
        (Dispatch.mk "CHANGE" Direction.up true)).onStateChangeCalls =
        mountProvider.onStateChangeCalls ++
          [(OverflowState.mk (CanScroll.mk true false false false), providerRefs)]) :=
  ⟨⟨rfl,
    onStateChange_fires_per_commit.2.1 mountProvider
      (Dispatch.mk "CHANGE" Direction.up false) rfl⟩,
   ⟨rfl,
    (onStateChange_fires_per_commit.2.2 mountProvider
      (Dispatch.mk "CHANGE" Direction.up true)
      (OverflowState.mk (CanScroll.mk true false false false)) rfl).2⟩⟩

/-- C7: when not ignoring, every report dispatches a CHANGE whose boolean
is `true` exactly when the bounding box has non-zero width or height, the
intersection ratio is non-zero, and `isIntersecting` holds; if any of the
three fails, `false` is dispatched. -/
theorem observerCallback_boolean_derivation (d : Direction)
    (e : IntersectionEntry) :
    observerCallback false d e =
      some (Dispatch.mk "CHANGE" d
        (decide ((e.boundingClientRect.width ≠ 0 ∨ e.boundingClientRect.height ≠ 0) ∧
          e.intersectionRatio ≠ 0 ∧ e.isIntersecting = true))) := by
  unfold observerCallback
  simp only [if_neg (Bool.false_ne_true)]
  congr 1
  by_cases hw : e.boundingClientRect.width = 0 <;>
    by_cases hh : e.boundingClientRect.height = 0 <;>
    by_cases hr : e.intersectionRatio = 0 <;>
    cases hi : e.isIntersecting <;>
    simp [hw, hh, hr, hi]

/-- C8 counterexample: the CSS string "0" denotes a zero-length
tolerance, yet it is truthy in JavaScript, so with tolerance "0" the
watchers observe the synthesized proxy rather than the content node, and
the proxy element is created — against the claim that a zero tolerance
observes the content node directly with no proxy. -/
theorem tolerance_zero_string_watches_proxy :
    Tolerance.isZeroLength (Tolerance.str "0") = true ∧
    watchTarget (Tolerance.str "0") ≠ WatchTarget.content ∧
    toleranceElement (Tolerance.str "0") ≠ none := by
  refine ⟨rfl, ?_, ?_⟩ <;> decide

/-- C8 amended: the watchers observe the content node directly, with no
proxy created, exactly when the tolerance is falsy — the number 0 (also
the default when the prop is absent) or the empty string; for any truthy
tolerance, including every non-empty string (even the zero-length "0"),
a transparent, non-interactive proxy inset by the tolerance on all four
sides of the content box is created and becomes the watched target. -/
theorem watch_target_by_tolerance (t : Tolerance) :
    (Tolerance.truthy t = false →
      watchTarget t = WatchTarget.content ∧ toleranceElement t = none) ∧
    (Tolerance.truthy t = true →
      watchTarget t = WatchTarget.toleranceProxy ∧
      toleranceElement t =
        some
          { position := "absolute", top := t, left := t, right := t,
            bottom := t, background := "transparent",
            pointerEvents := "none", zIndex := -1 }) ∧
    Tolerance.truthy defaultTolerance = false := by
  refine ⟨?_, ?_, ?_⟩
  · intro h
    constructor <;> simp [watchTarget, toleranceElement, h]
  · intro h
    constructor <;> simp [watchTarget, toleranceElement, h]
  · decide

theorem watch_target_by_tolerance_witness :
    (Tolerance.truthy (Tolerance.num 0) = false ∧
      watchTarget (Tolerance.num 0) = WatchTarget.content ∧
      toleranceElement (Tolerance.num 0) = none) ∧
    (Tolerance.truthy (Tolerance.num 10) = true ∧
      watchTarget (Tolerance.num 10) = WatchTarget.toleranceProxy ∧
      toleranceElement (Tolerance.num 10) =
        some
          { position := "absolute", top := Tolerance.num 10,
            left := Tolerance.num 10, right := Tolerance.num 10,
            bottom := Tolerance.num 10, background := "transparent",
            pointerEvents := "none", zIndex := -1 }) :=
  ⟨⟨by decide,
    ((watch_target_by_tolerance (Tolerance.num 0)).1 (by decide)).1,
    ((watch_target_by_tolerance (Tolerance.num 0)).1 (by decide)).2⟩,
   ⟨by decide,
    ((watch_target_by_tolerance (Tolerance.num 10)).2.1 (by decide)).1,
    ((watch_target_by_tolerance (Tolerance.num 10)).2.1 (by decide)).2⟩⟩

/-- C9: from the initial state, any finite sequence of actions processed
by the reducer leaves the `canScroll` object with exactly the four keys
`up`, `left`, `right`, `down` (in that order), each bound to a boolean;
no key is ever missing, extra, or bound to `undefined`. -/
theorem reducerObj_key_invariant (actions : List Dispatch) :
    (actions.foldl reducerObj getInitialCanScrollObj).map Prod.fst =
      ["up", "left", "right", "down"] ∧
    ∀ d : Direction, ∃ b : Bool,
      objGet (actions.foldl reducerObj getInitialCanScrollObj) (directionKey d) =
        some b := by
  have hkeys := foldl_reducerObj_keys actions getInitialCanScrollObj (by rfl)
  refine ⟨hkeys, fun d => ?_⟩
  apply objGet_isSome_of_mem
  rw [hkeys]
  cases d <;> simp [directionKey]

/-- C10: evaluated in a context carrying a state, the indicator active
signal equals the stored boolean of the supplied direction, and with no
direction supplied it is true exactly when at least one of the four
direction booleans is true. -/
theorem indicator_active_evaluation (st : OverflowState) (dp : Bool)
    (tol : Option Tolerance) (d : Direction) :
    (overflowIndicatorActive (OverflowContextVal.mk (some st) dp tol) (some d) =
      Except.ok (canScrollGet st.canScroll d)) ∧
    (overflowIndicatorActive (OverflowContextVal.mk (some st) dp tol) none =
        Except.ok true ↔
      st.canScroll.up = true ∨ st.canScroll.left = true ∨
        st.canScroll.right = true ∨ st.canScroll.down = true) := by
  constructor
  · rfl
  · simp [overflowIndicatorActive, indicatorIsActive, Bool.or_eq_true, or_assoc]
